import Mathlib

/-!
# Verification of the DripJobs CEO Dashboard updater

Shallow embedding of `scripts/update-dashboard.js`, the scheduled job that
fetches feature/bug task lists from ClickUp, aggregates per-window statistics
with `computeStats`, and writes `data.json`.

Modelling conventions:
* A ClickUp task's optional chain `t.status?.status` is flattened into a single
  `statusLabel : Option String` (absent when either the `status` object or its
  `status` label is missing — both absences behave identically in the code,
  since `undefined` is never a member of the configured status lists).
* `date_closed` / `date_created` arrive as string-encoded epoch milliseconds;
  `Number(undefined)` is `NaN` and every `NaN >= x` comparison is `false`, so
  they are modelled as `Option Int` with an absent value failing every
  range test.
* `Math.round((f / total) * 100)` rounds half toward `+∞`; for the small
  integer counts produced here the double computation agrees with exact
  rational round-half-up, modelled as `(200 * f + total) / (2 * total)` in
  natural division.
* Network and filesystem effects are modelled by explicit parameters: a fetch
  oracle `String → Except String (Option (List Task))` standing for the
  `clickup` helper (an `Option` result models a response body without a
  `tasks` field, recovered by `data.tasks || []`), and the output file as an
  explicit `Option ReportDocument` threaded through `mainRun`.
-/

namespace Dashboard

/-- A ClickUp task as consumed by the script: `name`, flattened status label,
creation/closure timestamps in epoch milliseconds, and `url`. -/
structure Task where
  name : String
  statusLabel : Option String
  date_created : Option Int
  date_closed : Option Int
  url : String
  deriving Repr, DecidableEq

/-- `DONE_STATUSES` from the script. -/
def DONE_STATUSES : List String := ["complete", "done", "closed", "shipped"]

/-- `IN_PROGRESS_STATUSES` from the script. -/
def IN_PROGRESS_STATUSES : List String := ["in progress", "in review", "in qa", "dev", "review"]

/-- ASCII lower-casing of one character, as `toLowerCase` acts on the ASCII
status labels involved here. -/
def lowerChar (c : Char) : Char :=
  if 65 ≤ c.toNat ∧ c.toNat ≤ 90 then Char.ofNat (c.toNat + 32) else c

/-- `s.toLowerCase()` on ASCII strings, character by character. -/
def strLower (s : String) : String :=
  ⟨s.data.map lowerChar⟩

/-- `isDone`: the lower-cased status label is in `DONE_STATUSES`; an absent
label never matches. -/
def isDone (t : Task) : Bool :=
  match t.statusLabel with
  | some s => DONE_STATUSES.contains (strLower s)
  | none => false

/-- `isInProgress`: the lower-cased status label is in `IN_PROGRESS_STATUSES`. -/
def isInProgress (t : Task) : Bool :=
  match t.statusLabel with
  | some s => IN_PROGRESS_STATUSES.contains (strLower s)
  | none => false

/-- `closedInRange`: done AND `Number(t.date_closed) >= sinceMs`; an absent
`date_closed` (`NaN` in the code) fails the comparison. -/
def closedInRange (sinceMs : Int) (t : Task) : Bool :=
  isDone t && (match t.date_closed with
    | some c => sinceMs ≤ c
    | none => false)

/-- `createdInRange`: `Number(t.date_created) >= sinceMs`. -/
def createdInRange (sinceMs : Int) (t : Task) : Bool :=
  match t.date_created with
  | some c => sinceMs ≤ c
  | none => false

/-- `t.status?.status?.toLowerCase() === 'deferred'`. -/
def isDeferred (t : Task) : Bool :=
  match t.statusLabel with
  | some s => strLower s = "deferred"
  | none => false

/-- The `stats` sub-object of a snapshot. -/
structure Stats where
  featuresShipped : Nat
  qaPassRate : Nat
  inProgress : Nat
  openBugs : Nat
  tasksClosed : Nat
  deriving Repr, DecidableEq

/-- The `bugs` sub-object of a snapshot (`open` is a Lean keyword, renamed
`bugsOpen`). -/
structure BugStats where
  newThisWeek : Nat
  resolved : Nat
  bugsOpen : Nat
  deferred : Nat
  deriving Repr, DecidableEq

/-- One `computeStats` result: `{ stats, bugs }`. -/
structure StatsSnapshot where
  stats : Stats
  bugs : BugStats
  deriving Repr, DecidableEq

/-- Exact round-half-up of `100 * f / total` (the value of
`Math.round((f / total) * 100)` for these integer counts), total > 0. -/
def roundRate (f total : Nat) : Nat :=
  (200 * f + total) / (2 * total)

/-- `computeStats(featureTasks, bugTasks, sinceMs)` translated line by line. -/
def computeStats (featureTasks bugTasks : List Task) (sinceMs : Int) : StatsSnapshot :=
  let featuresShipped := (featureTasks.filter (closedInRange sinceMs)).length
  let inProgress := (featureTasks.filter isInProgress).length
  let tasksClosed := ((featureTasks ++ bugTasks).filter (closedInRange sinceMs)).length
  let openBugs := (bugTasks.filter (fun t => !isDone t)).length
  let bugsNew := (bugTasks.filter (createdInRange sinceMs)).length
  let bugsResolved := (bugTasks.filter (closedInRange sinceMs)).length
  let bugsDeferred := (bugTasks.filter isDeferred).length
  let bugsClosedInRange := (bugTasks.filter (closedInRange sinceMs)).length
  let totalShipped := featuresShipped + bugsClosedInRange
  let qaPassRate := if 0 < totalShipped then roundRate featuresShipped totalShipped else 100
  { stats := { featuresShipped := featuresShipped, qaPassRate := qaPassRate,
               inProgress := inProgress, openBugs := openBugs, tasksClosed := tasksClosed },
    bugs := { newThisWeek := bugsNew, resolved := bugsResolved,
              bugsOpen := openBugs, deferred := bugsDeferred } }

/-- Left-pad a numeral to two digits, as in `toISOString` output fields. -/
def pad2 (n : Nat) : String :=
  if n < 10 then "0" ++ toString n else toString n

/-- Left-pad a numeral to three digits (milliseconds field). -/
def pad3 (n : Nat) : String :=
  if n < 10 then "00" ++ toString n
  else if n < 100 then "0" ++ toString n
  else toString n

/-- Left-pad a numeral to four digits (year field). -/
def pad4 (n : Nat) : String :=
  if n < 10 then "000" ++ toString n
  else if n < 100 then "00" ++ toString n
  else if n < 1000 then "0" ++ toString n
  else toString n

/-- Gregorian civil date (year, month, day) from days since 1970-01-01. -/
def civilFromDays (z0 : Int) : Int × Nat × Nat :=
  let z := z0 + 719468
  let era := z.fdiv 146097
  let doe := (z - era * 146097).toNat
  let yoe := (doe - doe / 1460 + doe / 36524 - doe / 146096) / 365
  let doy := doe - (365 * yoe + yoe / 4 - yoe / 100)
  let mp := (5 * doy + 2) / 153
  let d := doy - (153 * mp + 2) / 5 + 1
  let m := if mp < 10 then mp + 3 else mp - 9
  (if m ≤ 2 then (yoe : Int) + era * 400 + 1 else (yoe : Int) + era * 400, m, d)

/-- `new Date(ms).toISOString()` for timestamps whose year has four digits:
`yyyy-MM-ddTHH:mm:ss.sssZ`. -/
def toISOString (ms : Int) : String :=
  let day := ms.fdiv 86400000
  let msod := (ms - day * 86400000).toNat
  let c := civilFromDays day
  let hh := msod / 3600000
  let mm := msod % 3600000 / 60000
  let ss := msod % 60000 / 1000
  let mss := msod % 1000
  pad4 c.1.toNat ++ "-" ++ pad2 c.2.1 ++ "-" ++ pad2 c.2.2 ++ "T" ++
    pad2 hh ++ ":" ++ pad2 mm ++ ":" ++ pad2 ss ++ "." ++ pad3 mss ++ "Z"

/-- One element of `recentActivity`: `{ title, status, closedAt, url }`. -/
structure ActivityEntry where
  title : String
  status : Option String
  closedAt : String
  url : String
  deriving Repr, DecidableEq

/-- The filter of the recent-activity pipeline: done AND truthy `date_closed`. -/
def recentFilter (t : Task) : Bool :=
  isDone t && t.date_closed.isSome

/-- Sort key: `Number(t.date_closed)` (only applied to tasks that pass
`recentFilter`, where `date_closed` is present). -/
def closedKey (t : Task) : Int :=
  t.date_closed.getD 0

/-- The recent-activity pipeline before projection: filter done tasks with a
closure timestamp from both lists, stable-sort descending by closure
timestamp, keep the first 5. -/
def recentSorted (featureTasks bugTasks : List Task) : List Task :=
  ((((featureTasks ++ bugTasks).filter recentFilter).mergeSort
    (fun a b => decide (closedKey b ≤ closedKey a))).take 5)

/-- Projection of one task into its `recentActivity` entry. -/
def toActivityEntry (t : Task) : ActivityEntry :=
  { title := t.name, status := t.statusLabel,
    closedAt := toISOString (closedKey t), url := t.url }

/-- The `recentActivity` value of the output document. -/
def recentActivity (featureTasks bugTasks : List Task) : List ActivityEntry :=
  (recentSorted featureTasks bugTasks).map toActivityEntry

/-- `getListTasks(listId)`: an unset or empty (falsy) list id yields `[]`
without touching the network. Otherwise one request is issued through the
fetch oracle; a successful response without a `tasks` field is recovered to
`[]`. The second component records the upstream requests performed. -/
def getListTasks (fetch : String → Except String (Option (List Task)))
    (listId : Option String) : Except String (List Task) × List String :=
  match listId with
  | none => (Except.ok [], [])
  | some id =>
    if id = "" then (Except.ok [], [])
    else
      let path := "/list/" ++ id ++ "/task"
      match fetch path with
      | Except.error e => (Except.error e, [path])
      | Except.ok d => (Except.ok (d.getD []), [path])

/-- `daysAgo(n)` relative to an explicit `now` in epoch milliseconds. -/
def daysAgo (n : Nat) (now : Int) : Int :=
  now - n * 24 * 60 * 60 * 1000

/-- The five window keys of the `ranges` object, in write order. -/
def WINDOW_KEYS : List String := ["today", "7d", "30d", "90d", "ytd"]

/-- The `ranges` object of `main`: one `computeStats` snapshot per window.
`startOfYear()` depends on the local clock and is passed in as `yearStart`. -/
def buildRanges (featureTasks bugTasks : List Task) (now yearStart : Int) :
    List (String × StatsSnapshot) :=
  [("today", computeStats featureTasks bugTasks (daysAgo 1 now)),
   ("7d", computeStats featureTasks bugTasks (daysAgo 7 now)),
   ("30d", computeStats featureTasks bugTasks (daysAgo 30 now)),
   ("90d", computeStats featureTasks bugTasks (daysAgo 90 now)),
   ("ytd", computeStats featureTasks bugTasks yearStart)]

/-- The document written to `data.json`. -/
structure ReportDocument where
  lastUpdated : String
  stats : Stats
  bugs : BugStats
  ranges : List (String × StatsSnapshot)
  recentActivity : List ActivityEntry
  deriving Repr, DecidableEq

/-- Assembly of the output document in `main` (fetch already done). -/
def buildDocument (featureTasks bugTasks : List Task) (now yearStart : Int) :
    ReportDocument :=
  let ranges := buildRanges featureTasks bugTasks now yearStart
  { lastUpdated := toISOString now,
    stats := (computeStats featureTasks bugTasks (daysAgo 7 now)).stats,
    bugs := (computeStats featureTasks bugTasks (daysAgo 7 now)).bugs,
    ranges := ranges,
    recentActivity := recentActivity featureTasks bugTasks }

/-- `main().catch(...)`: fetch both lists, aggregate, then overwrite the
output file. The file is modelled as `prevFile`; the result pairs the file
state after the run with success (the written document) or failure (the
propagated error message, `process.exit(1)`). Any fetch rejection aborts
before the write. -/
def mainRun (fetch : String → Except String (Option (List Task)))
    (featuresList bugsList : Option String) (now yearStart : Int)
    (prevFile : Option ReportDocument) :
    Option ReportDocument × Except String ReportDocument :=
  match (getListTasks fetch featuresList).1 with
  | Except.error e => (prevFile, Except.error e)
  | Except.ok featureTasks =>
    match (getListTasks fetch bugsList).1 with
    | Except.error e => (prevFile, Except.error e)
    | Except.ok bugTasks =>
      let doc := buildDocument featureTasks bugTasks now yearStart
      (some doc, Except.ok doc)

/-- Boolean success test on `Except` (models "the promise resolved"). -/
def isOkB {ε α : Type _} : Except ε α → Bool
  | Except.ok _ => true
  | Except.error _ => false

/-! ## Spec-side definitions

The following three definitions transcribe the specification's words for the
`qaPassRate` formula (claim C1), independently of the `computeStats`
translation above, to be compared with it. -/

/-- Following the spec's words: `featuresShipped` counts feature tasks that
are done with closure timestamp ≥ the cutoff. -/
def specFeaturesShipped (featureTasks : List Task) (cutoff : Int) : Nat :=
  (featureTasks.filter fun t => isDone t && t.date_closed.any fun ms => decide (cutoff ≤ ms)).length

/-- Following the spec's words: `bugsClosedInRange` counts bug tasks that are
done with closure timestamp ≥ the cutoff. -/
def specBugsClosedInRange (bugTasks : List Task) (cutoff : Int) : Nat :=
  (bugTasks.filter fun t => isDone t && t.date_closed.any fun ms => decide (cutoff ≤ ms)).length

/-- Following the spec's words: round(100 × featuresShipped /
(featuresShipped + bugsClosedInRange)) when the denominator is positive,
else 100. -/
def specQaPassRate (featureTasks bugTasks : List Task) (cutoff : Int) : Nat :=
  let shipped := specFeaturesShipped featureTasks cutoff
  let denom := shipped + specBugsClosedInRange bugTasks cutoff
  if 0 < denom then (200 * shipped + denom) / (2 * denom) else 100

/-! ## Concrete sample tasks used by witnesses and counterexamples -/

/-- A feature task with status `done` closed at time 10. -/
def shippedFeature : Task :=
  { name := "t", statusLabel := some "done", date_created := some 0,
    date_closed := some 10, url := "u" }

/-- A task with no status label at all. -/
def statuslessTask : Task :=
  { name := "s", statusLabel := none, date_created := some 0,
    date_closed := some 10, url := "u" }

/-- A done task whose closure timestamp is absent. -/
def doneUnclosedTask : Task :=
  { name := "d", statusLabel := some "done", date_created := some 0,
    date_closed := none, url := "u" }

/-- Reference time for the concrete 7-day-window scenario
(2023-11-14T22:13:20Z in epoch milliseconds). -/
def nowMs : Int := 1700000000000

/-- The 3 feature tasks of the spec's scenario: 2 done and closed 2 days ago,
1 in progress. -/
def scenarioFeatures : List Task :=
  [{ name := "f1", statusLabel := some "done", date_created := some (nowMs - 10 * 86400000),
     date_closed := some (nowMs - 2 * 86400000), url := "u1" },
   { name := "f2", statusLabel := some "done", date_created := some (nowMs - 10 * 86400000),
     date_closed := some (nowMs - 2 * 86400000), url := "u2" },
   { name := "f3", statusLabel := some "in progress", date_created := some (nowMs - 10 * 86400000),
     date_closed := none, url := "u3" }]

/-- The 2 bug tasks of the spec's scenario: 1 closed 1 day ago, 1 open. -/
def scenarioBugs : List Task :=
  [{ name := "b1", statusLabel := some "closed", date_created := some (nowMs - 10 * 86400000),
     date_closed := some (nowMs - 1 * 86400000), url := "u4" },
   { name := "b2", statusLabel := some "new", date_created := some (nowMs - 10 * 86400000),
     date_closed := none, url := "u5" }]

/-! ## Helper lemmas -/

/-- Splitting a list by a Boolean predicate partitions its length. -/
theorem length_filter_not_add_length_filter {α : Type _} (p : α → Bool) (l : List α) :
    (l.filter fun a => !p a).length + (l.filter p).length = l.length := by
  induction l with
  | nil => rfl
  | cons a l ih =>
    cases h : p a <;> simp [List.filter_cons, h] <;> omega

/-- `closedInRange` rewritten through `Option.any`. -/
theorem closedInRange_eq (c : Int) (t : Task) :
    closedInRange c t = (isDone t && t.date_closed.any fun ms => decide (c ≤ ms)) := by
  obtain ⟨n, s, dcr, dcl, u⟩ := t
  cases dcl <;> rfl

/-- Filtering by `closedInRange` equals filtering by the spec's phrasing. -/
theorem filter_closedInRange (c : Int) (l : List Task) :
    l.filter (closedInRange c)
      = l.filter fun t => isDone t && t.date_closed.any fun ms => decide (c ≤ ms) :=
  List.filter_congr fun t _ => closedInRange_eq c t

/-- The rounded rate never exceeds 100 when the numerator is at most the
denominator. -/
theorem roundRate_le_100 (f total : Nat) (hf : f ≤ total) (ht : 0 < total) :
    roundRate f total ≤ 100 := by
  unfold roundRate
  rw [Nat.div_le_iff_le_mul_add_pred (by omega)]
  omega

/-- Every count of a snapshot is a non-negative integer. -/
theorem snapshot_counts_nonneg (s : StatsSnapshot) :
    (0 : Int) ≤ s.stats.featuresShipped ∧ (0 : Int) ≤ s.stats.qaPassRate ∧
    (0 : Int) ≤ s.stats.inProgress ∧ (0 : Int) ≤ s.stats.openBugs ∧
    (0 : Int) ≤ s.stats.tasksClosed ∧ (0 : Int) ≤ s.bugs.newThisWeek ∧
    (0 : Int) ≤ s.bugs.resolved ∧ (0 : Int) ≤ s.bugs.bugsOpen ∧
    (0 : Int) ≤ s.bugs.deferred :=
  ⟨Int.natCast_nonneg _, Int.natCast_nonneg _, Int.natCast_nonneg _,
   Int.natCast_nonneg _, Int.natCast_nonneg _, Int.natCast_nonneg _,
   Int.natCast_nonneg _, Int.natCast_nonneg _, Int.natCast_nonneg _⟩

/-! ## Claim theorems -/

/-- C1: for every pair of feature/bug task collections and every cutoff
timestamp, `computeStats` returns `qaPassRate` = round(100 × featuresShipped /
(featuresShipped + bugsClosedInRange)) when the denominator is positive and
100 when it is zero, with both counts as the spec phrases them (done tasks
whose closure timestamp is ≥ the cutoff). -/
theorem qaPassRate_matches_spec_formula (featureTasks bugTasks : List Task) (cutoff : Int) :
    (computeStats featureTasks bugTasks cutoff).stats.qaPassRate
      = specQaPassRate featureTasks bugTasks cutoff := by
  simp only [computeStats, specQaPassRate, specFeaturesShipped, specBugsClosedInRange,
    roundRate, filter_closedInRange]

/-- C2 counterexample: one feature task done and closed in range, no bugs,
gives `qaPassRate` = 100 while featuresShipped + bugsClosedInRange = 1 ≠ 0,
so "qaPassRate equals 100 exactly when the denominator is zero" fails. -/
theorem qaPassRate_100_iff_counterexample :
    ¬ (((computeStats [shippedFeature] [] 0).stats.qaPassRate = 100) ↔
      (specFeaturesShipped [shippedFeature] 0 + specBugsClosedInRange [] 0 = 0)) := by
  decide

/-- C2 (amended): `qaPassRate` always lies in [0, 100] (it is a natural
number bounded by 100), and it equals 100 whenever
featuresShipped + bugsClosedInRange = 0 — but not only then. -/
theorem qaPassRate_bounds (featureTasks bugTasks : List Task) (cutoff : Int) :
    (computeStats featureTasks bugTasks cutoff).stats.qaPassRate ≤ 100 ∧
    (specFeaturesShipped featureTasks cutoff + specBugsClosedInRange bugTasks cutoff = 0 →
      (computeStats featureTasks bugTasks cutoff).stats.qaPassRate = 100) := by
  have hf : specFeaturesShipped featureTasks cutoff
      = (featureTasks.filter (closedInRange cutoff)).length := by
    rw [specFeaturesShipped, filter_closedInRange]
  have hb : specBugsClosedInRange bugTasks cutoff
      = (bugTasks.filter (closedInRange cutoff)).length := by
    rw [specBugsClosedInRange, filter_closedInRange]
  constructor
  · simp only [computeStats]
    split
    · exact roundRate_le_100 _ _ (Nat.le_add_right _ _) (by assumption)
    · exact Nat.le_refl 100
  · intro h
    rw [hf, hb] at h
    simp only [computeStats]
    rw [if_neg (by omega)]

/-- C2 witness: the amended bounds at the empty collections. -/
theorem qaPassRate_bounds_witness :
    (computeStats [] [] 0).stats.qaPassRate ≤ 100 ∧
    (specFeaturesShipped ([] : List Task) 0 + specBugsClosedInRange ([] : List Task) 0 = 0 →
      (computeStats [] [] 0).stats.qaPassRate = 100) :=
  qaPassRate_bounds [] [] 0

/-- C3: `openBugs` plus the number of done bug tasks equals the total size of
the bug collection, for every bug collection and cutoff. -/
theorem openBugs_complement (featureTasks bugTasks : List Task) (cutoff : Int) :
    (computeStats featureTasks bugTasks cutoff).stats.openBugs
      + (bugTasks.filter isDone).length = bugTasks.length := by
  simp only [computeStats]
  exact length_filter_not_add_length_filter isDone bugTasks

/-- C4: the spec's concrete scenario — 3 feature tasks (2 done and closed 2
days ago, 1 in progress) and 2 bug tasks (1 closed 1 day ago, 1 open) under
the 7-day cutoff — yields featuresShipped = 2, inProgress = 1,
bugsResolved = 1, openBugs = 1, qaPassRate = 67. -/
theorem scenario_7d :
    (computeStats scenarioFeatures scenarioBugs (daysAgo 7 nowMs)).stats.featuresShipped = 2 ∧
    (computeStats scenarioFeatures scenarioBugs (daysAgo 7 nowMs)).stats.inProgress = 1 ∧
    (computeStats scenarioFeatures scenarioBugs (daysAgo 7 nowMs)).bugs.resolved = 1 ∧
    (computeStats scenarioFeatures scenarioBugs (daysAgo 7 nowMs)).stats.openBugs = 1 ∧
    (computeStats scenarioFeatures scenarioBugs (daysAgo 7 nowMs)).stats.qaPassRate = 67 := by
  decide

/-- C6: an absent collection identifier makes `getListTasks` return the empty
collection successfully, independently of the fetch oracle, with an empty
request log (no upstream request is performed). -/
theorem getListTasks_absent (fetch : String → Except String (Option (List Task))) :
    getListTasks fetch none = (Except.ok [], []) :=
  rfl

/-- C9: `computeStats` is a deterministic pure function of its three
arguments — equal inputs yield equal snapshots — and each entry of the
five-window `ranges` object equals a direct `computeStats` call at its own
cutoff, so no state flows between the per-window computations. -/
theorem computeStats_deterministic (f1 f2 b1 b2 : List Task) (s1 s2 now yearStart : Int)
    (hf : f1 = f2) (hb : b1 = b2) (hs : s1 = s2) :
    computeStats f1 b1 s1 = computeStats f2 b2 s2 ∧
    (buildRanges f1 b1 now yearStart).map Prod.snd =
      [computeStats f1 b1 (daysAgo 1 now), computeStats f1 b1 (daysAgo 7 now),
       computeStats f1 b1 (daysAgo 30 now), computeStats f1 b1 (daysAgo 90 now),
       computeStats f1 b1 yearStart] := by
  subst hf; subst hb; subst hs
  exact ⟨rfl, rfl⟩

/-- C9 witness: determinism and window independence at concrete inputs. -/
theorem computeStats_deterministic_witness :
    computeStats [shippedFeature] [] 0 = computeStats [shippedFeature] [] 0 ∧
    (buildRanges [shippedFeature] [] 0 0).map Prod.snd =
      [computeStats [shippedFeature] [] (daysAgo 1 0), computeStats [shippedFeature] [] (daysAgo 7 0),
       computeStats [shippedFeature] [] (daysAgo 30 0), computeStats [shippedFeature] [] (daysAgo 90 0),
       computeStats [shippedFeature] [] 0] :=
  computeStats_deterministic [shippedFeature] [shippedFeature] [] [] 0 0 0 0 rfl rfl rfl

/-- C5: `recentActivity` has at most 5 entries, each entry is the
title/status/closedAt/url reduction of a task from the two collections that
is done and has a closure timestamp, and the underlying task list is sorted
in descending order of closure timestamp. -/
theorem recentActivity_bounded_sorted (featureTasks bugTasks : List Task) :
    (recentActivity featureTasks bugTasks).length ≤ 5 ∧
    (∀ e ∈ recentActivity featureTasks bugTasks,
      ∃ t, t ∈ featureTasks ++ bugTasks ∧ isDone t = true ∧
        t.date_closed.isSome = true ∧ e = toActivityEntry t) ∧
    (recentSorted featureTasks bugTasks).Pairwise
      (fun a b => closedKey b ≤ closedKey a) := by
  have hmem : ∀ t ∈ recentSorted featureTasks bugTasks,
      t ∈ featureTasks ++ bugTasks ∧ isDone t = true ∧ t.date_closed.isSome = true := by
    intro t ht
    have h1 : t ∈ ((featureTasks ++ bugTasks).filter recentFilter).mergeSort
        (fun a b => decide (closedKey b ≤ closedKey a)) :=
      List.take_subset 5 _ ht
    have h2 := List.mem_filter.mp (List.mem_mergeSort.mp h1)
    have h3 : recentFilter t = true := h2.2
    rw [recentFilter, Bool.and_eq_true] at h3
    exact ⟨h2.1, h3.1, h3.2⟩
  refine ⟨?_, ?_, ?_⟩
  · simp only [recentActivity, recentSorted, List.length_map]
    exact List.length_take_le 5 _
  · intro e he
    obtain ⟨t, ht, rfl⟩ := List.mem_map.mp he
    obtain ⟨h1, h2, h3⟩ := hmem t ht
    exact ⟨t, h1, h2, h3, rfl⟩
  · have hs : (((featureTasks ++ bugTasks).filter recentFilter).mergeSort
        (fun a b => decide (closedKey b ≤ closedKey a))).Pairwise
        (fun a b => decide (closedKey b ≤ closedKey a) = true) := by
      apply List.sorted_mergeSort
      · intro a b c hab hbc
        simp only [decide_eq_true_eq] at *
        exact le_trans hbc hab
      · intro a b
        rcases le_total (closedKey a) (closedKey b) with h | h <;> simp [h]
    have hst : (recentSorted featureTasks bugTasks).Pairwise
        (fun a b => decide (closedKey b ≤ closedKey a) = true) :=
      List.Pairwise.sublist (List.take_sublist 5 _) hs
    exact hst.imp fun h => by simp at h; exact h

/-- C7: a successful run writes a document whose `ranges` mapping has exactly
the keys `today`, `7d`, `30d`, `90d`, `ytd` in order, and every count in
every per-range snapshot is a non-negative integer. -/
theorem ranges_keys_and_counts (fetch : String → Except String (Option (List Task)))
    (featuresList bugsList : Option String) (now yearStart : Int)
    (prevFile : Option ReportDocument) (doc : ReportDocument)
    (h : (mainRun fetch featuresList bugsList now yearStart prevFile).2 = Except.ok doc) :
    doc.ranges.map Prod.fst = WINDOW_KEYS ∧
    ∀ p ∈ doc.ranges,
      (0 : Int) ≤ p.2.stats.featuresShipped ∧ (0 : Int) ≤ p.2.stats.qaPassRate ∧
      (0 : Int) ≤ p.2.stats.inProgress ∧ (0 : Int) ≤ p.2.stats.openBugs ∧
      (0 : Int) ≤ p.2.stats.tasksClosed ∧ (0 : Int) ≤ p.2.bugs.newThisWeek ∧
      (0 : Int) ≤ p.2.bugs.resolved ∧ (0 : Int) ≤ p.2.bugs.bugsOpen ∧
      (0 : Int) ≤ p.2.bugs.deferred := by
  unfold mainRun at h
  rcases hf : (getListTasks fetch featuresList).1 with e | featureTasks <;> rw [hf] at h
  · exact absurd h (by simp)
  rcases hb : (getListTasks fetch bugsList).1 with e | bugTasks <;> rw [hb] at h
  · exact absurd h (by simp)
  simp only [Except.ok.injEq] at h
  subst h
  constructor
  · rfl
  · intro p _
    exact snapshot_counts_nonneg p.2

/-- C7 witness: with both list identifiers unset the run succeeds and the
written document satisfies the key and non-negativity properties. -/
theorem ranges_keys_and_counts_witness :
    (buildDocument [] [] 0 0).ranges.map Prod.fst = WINDOW_KEYS ∧
    ∀ p ∈ (buildDocument [] [] 0 0).ranges,
      (0 : Int) ≤ p.2.stats.featuresShipped ∧ (0 : Int) ≤ p.2.stats.qaPassRate ∧
      (0 : Int) ≤ p.2.stats.inProgress ∧ (0 : Int) ≤ p.2.stats.openBugs ∧
      (0 : Int) ≤ p.2.stats.tasksClosed ∧ (0 : Int) ≤ p.2.bugs.newThisWeek ∧
      (0 : Int) ≤ p.2.bugs.resolved ∧ (0 : Int) ≤ p.2.bugs.bugsOpen ∧
      (0 : Int) ≤ p.2.bugs.deferred :=
  ranges_keys_and_counts (fun _ => Except.error "unreachable") none none 0 0 none
    (buildDocument [] [] 0 0) rfl

/-- C8: when fetching either collection fails, the run reports failure and
the previous output file is left untouched — the write happens only after
both fetches and the aggregation have succeeded. -/
theorem failure_leaves_file_untouched (fetch : String → Except String (Option (List Task)))
    (featuresList bugsList : Option String) (now yearStart : Int)
    (prevFile : Option ReportDocument)
    (h : isOkB (getListTasks fetch featuresList).1 = false ∨
         isOkB (getListTasks fetch bugsList).1 = false) :
    (mainRun fetch featuresList bugsList now yearStart prevFile).1 = prevFile ∧
    isOkB (mainRun fetch featuresList bugsList now yearStart prevFile).2 = false := by
  unfold mainRun
  rcases hf : (getListTasks fetch featuresList).1 with e | featureTasks
  · exact ⟨rfl, rfl⟩
  rcases hb : (getListTasks fetch bugsList).1 with e | bugTasks
  · exact ⟨rfl, rfl⟩
  rcases h with h | h
  · rw [hf] at h; exact absurd h (by simp [isOkB])
  · rw [hb] at h; exact absurd h (by simp [isOkB])

/-- C8 witness: a rejecting fetch oracle with a configured features list
leaves the (empty) previous file untouched and the run failed. -/
theorem failure_leaves_file_untouched_witness :
    (mainRun (fun _ => Except.error "ClickUp API 500") (some "42") none 0 0 none).1 = none ∧
    isOkB (mainRun (fun _ => Except.error "ClickUp API 500") (some "42") none 0 0 none).2
      = false :=
  failure_leaves_file_untouched (fun _ => Except.error "ClickUp API 500")
    (some "42") none 0 0 none (Or.inl rfl)

/-- C10: a task with an absent status label is neither done nor in progress
and is counted among the open bugs, and a done task with an absent closure
timestamp is never `closedInRange`, so it contributes to none of
featuresShipped, tasksClosed, or bugsResolved for any cutoff. -/
theorem absent_fields_safe (t u : Task) (featureTasks bugTasks : List Task) (cutoff : Int)
    (ht : t.statusLabel = none) (_hu : isDone u = true) (huc : u.date_closed = none) :
    (isDone t = false ∧ isInProgress t = false ∧
      (computeStats featureTasks (t :: bugTasks) cutoff).stats.openBugs
        = (computeStats featureTasks bugTasks cutoff).stats.openBugs + 1) ∧
    (closedInRange cutoff u = false ∧
      (computeStats (u :: featureTasks) bugTasks cutoff).stats.featuresShipped
        = (computeStats featureTasks bugTasks cutoff).stats.featuresShipped ∧
      (computeStats (u :: featureTasks) bugTasks cutoff).stats.tasksClosed
        = (computeStats featureTasks bugTasks cutoff).stats.tasksClosed ∧
      (computeStats featureTasks (u :: bugTasks) cutoff).bugs.resolved
        = (computeStats featureTasks bugTasks cutoff).bugs.resolved) := by
  have hdone : isDone t = false := by simp [isDone, ht]
  have hprog : isInProgress t = false := by simp [isInProgress, ht]
  have hcir : closedInRange cutoff u = false := by
    rw [closedInRange_eq, huc]
    simp [Option.any]
  refine ⟨⟨hdone, hprog, ?_⟩, hcir, ?_, ?_, ?_⟩
  · simp [computeStats, List.filter_cons, hdone]
  · simp [computeStats, List.filter_cons, hcir]
  · simp [computeStats, List.cons_append, List.filter_cons, hcir]
  · simp [computeStats, List.filter_cons, hcir]

/-- C10 witness: the guarantees at a concrete status-less bug and a concrete
done-but-unclosed task. -/
theorem absent_fields_safe_witness :
    (isDone statuslessTask = false ∧ isInProgress statuslessTask = false ∧
      (computeStats [] [statuslessTask] 0).stats.openBugs
        = (computeStats [] [] 0).stats.openBugs + 1) ∧
    (closedInRange 0 doneUnclosedTask = false ∧
      (computeStats [doneUnclosedTask] [] 0).stats.featuresShipped
        = (computeStats [] [] 0).stats.featuresShipped ∧
      (computeStats [doneUnclosedTask] [] 0).stats.tasksClosed
        = (computeStats [] [] 0).stats.tasksClosed ∧
      (computeStats [] [doneUnclosedTask] 0).bugs.resolved
        = (computeStats [] [] 0).bugs.resolved) :=
  absent_fields_safe statuslessTask doneUnclosedTask [] [] 0 rfl (by decide) rfl

end Dashboard
